import Mathlib

/-!
Shallow embedding of the PID controller from `src/lib.rs` and proofs of the
specification claims about it.

The Rust code is generic over a numeric type `T` bounded by
`Mul + Div + Add + Sub + Neg + PartialOrd + Copy`.  We mirror that with a Lean
structure generic over `T` with the corresponding typeclass assumptions, and we
state the claim theorems at `T = Int` (the repository's own tests instantiate
the controller at `i32` and `f64`; `Int` is the exact model of the integer
instantiation for the inputs used here).

Rust's `panic!` is modelled by `Option`: a call that panics is `none`, a call
that completes is `some` of the mutated controller.  In the source the panic
in `calculate` fires before any field write, so the state standing at panic
time is the original receiver; `calculateState` below returns that
caller-observable state (new state on success, unchanged receiver on panic).
The Rust `calculate` method has no return type annotation, i.e. it returns the
unit value `()`; `calculateRet` exposes exactly that caller-visible return.
-/

/-- The controller state, mirroring `pub struct PID<T>` (src/lib.rs lines
13-26): history fields `previous_error`, `previous_integral`, the stored
`zero_value`, the three gains, the optional `integral_limit`, and the
`output : Option T` field where the last computed output is published. -/
structure PID (T : Type) where
  previous_error : T
  previous_integral : T
  zero_value : T
  gain_p : T
  gain_i : T
  gain_d : T
  integral_limit : Option T
  output : Option T
deriving DecidableEq

variable {T : Type}

/-- Constructor, mirroring `PID::new` (src/lib.rs lines 38-50):
`previous_error` and `previous_integral` start at the supplied `zero_value`,
the gains and the optional clamp are stored as given, and `output` starts as
`None` (the controller has produced no output yet). -/
def PID.new (zero_value gain_p gain_i gain_d : T) (integral_limit : Option T) :
    PID T :=
  { previous_error := zero_value
    previous_integral := zero_value
    zero_value := zero_value
    gain_p := gain_p
    gain_i := gain_i
    gain_d := gain_d
    integral_limit := integral_limit
    output := none }

/-- The integral clamp, mirroring the `match self.integral_limit` block of
`calculate` (src/lib.rs lines 68-74): with `Some limit` the value saturates
into `[-limit, limit]`; with `None` it is returned unchanged.  Rust's
`integral > limit` is `PartialOrd`'s flipped `<`, written so here. -/
def clampI [Neg T] [LT T] [DecidableRel ((· < ·) : T → T → Prop)]
    (integral : T) : Option T → T
  | some limit =>
      if limit < integral then limit
      else if integral < -limit then -limit
      else integral
  | none => integral

/-- The pid algorithm, mirroring `PID::calculate` (src/lib.rs lines 58-90).
Rust's `delta_time > self.zero_value` (`PartialOrd` defines `>` as the
flipped `<`) guards the whole computation; the `false` arm panics
(`panic!("delta_time cannot be zero")`), modelled as `none`.  On the `true`
arm: `error = set_point - measured_value`,
`integral = (previous_integral + error) * delta_time`,
`derivative = (error - previous_error) / delta_time`, the integral is then
clamped, `output = error*gain_p + integral*gain_i + derivative*gain_d`, and
the three history fields are committed. -/
def PID.calculate [Mul T] [Div T] [Add T] [Sub T] [Neg T] [LT T]
    [DecidableRel ((· < ·) : T → T → Prop)]
    (s : PID T) (set_point measured_value delta_time : T) : Option (PID T) :=
  if s.zero_value < delta_time then
    let error := set_point - measured_value
    let integral := (s.previous_integral + error) * delta_time
    let derivative := (error - s.previous_error) / delta_time
    let integralC := clampI integral s.integral_limit
    let out := (error * s.gain_p) + (integralC * s.gain_i)
      + (derivative * s.gain_d)
    some { s with
            previous_error := error
            previous_integral := integralC
            output := some out }
  else
    none

/-- Caller-observable state after a `calculate` call: the committed state on
success, and the untouched receiver when the call panics (in the source the
panic fires before any field write, so the receiver is unmodified). -/
def PID.calculateState [Mul T] [Div T] [Add T] [Sub T] [Neg T] [LT T]
    [DecidableRel ((· < ·) : T → T → Prop)]
    (s : PID T) (set_point measured_value delta_time : T) : PID T :=
  (s.calculate set_point measured_value delta_time).getD s

/-- Caller-visible return value of `calculate`: the Rust method has no return
type annotation, so a completing call returns the unit value `()` and a
panicking call returns nothing (`none`). -/
def PID.calculateRet [Mul T] [Div T] [Add T] [Sub T] [Neg T] [LT T]
    [DecidableRel ((· < ·) : T → T → Prop)]
    (s : PID T) (set_point measured_value delta_time : T) : Option Unit :=
  (s.calculate set_point measured_value delta_time).map (fun _ => ())

/-- Saturation bounds of the integral clamp: with a non-negative limit `L`,
the clamped value always lies in `[-L, L]`. -/
theorem clampI_mem (x L : Int) (hL : 0 ≤ L) :
    -L ≤ clampI x (some L) ∧ clampI x (some L) ≤ L := by
  simp only [clampI]
  split_ifs with h1 h2 <;> omega

/-- Claim C1, counterexample: the claim says a call with non-positive
`delta_time` raises no error, but on the concrete controller
`PID::new(0, 100, 0, 0, None)` the call `calculate(50, 0, 0)` panics
(`none` in this embedding), matching the repository's own
`#[should_panic]` test `panic_when_delta_time_0`. -/
theorem C1_counterexample :
    (PID.new (0 : Int) 100 0 0 none).calculate 50 0 0 = none := by decide

/-- Claim C1, amended: whenever `delta_time` is not strictly greater than the
stored `zero_value`, `calculate` panics (modelled as `none`) rather than
returning the previous output, and — since the panic fires before any field
write — it leaves every field of the controller exactly as it was. -/
theorem C1_theorem (s : PID Int) (sp mv dt : Int) (h : ¬ s.zero_value < dt) :
    s.calculate sp mv dt = none ∧ s.calculateState sp mv dt = s := by
  constructor <;> simp [PID.calculate, PID.calculateState, h]

/-- Witness for `C1_theorem` at the controller `PID::new(0, 100, 0, 0, None)`
and the call `calculate(50, 0, 0)`. -/
theorem C1_witness :
    (¬ (PID.new (0 : Int) 100 0 0 none).zero_value < 0)
    ∧ ((PID.new (0 : Int) 100 0 0 none).calculate 50 0 0 = none
      ∧ (PID.new (0 : Int) 100 0 0 none).calculateState 50 0 0
          = PID.new (0 : Int) 100 0 0 none) :=
  ⟨by decide, C1_theorem (PID.new (0 : Int) 100 0 0 none) 50 0 0 (by decide)⟩

/-- Claim C2, counterexample: `calculate` does not return the computed output
to the caller — its Rust return type is the unit type.  Two calls whose
computed outputs differ (`5000` vs `50`, visible only through the stored
`output` field) have identical caller-visible return values, so the return
value cannot equal the computed output. -/
theorem C2_counterexample :
    (PID.new (0 : Int) 100 0 0 none).calculateRet 50 0 200
      = (PID.new (0 : Int) 1 0 0 none).calculateRet 50 0 200
    ∧ ((PID.new (0 : Int) 100 0 0 none).calculateState 50 0 200).output
        = some 5000
    ∧ ((PID.new (0 : Int) 1 0 0 none).calculateState 50 0 200).output
        = some 50 := by decide

/-- Claim C2, amended: for strictly positive `delta_time` the call returns
the unit value, and the computed output
`error*gain_p + clamped_integral*gain_i + derivative*gain_d` is published in
the controller's `output` field, where the caller can read it. -/
theorem C2_theorem (s : PID Int) (sp mv dt : Int) (h : s.zero_value < dt) :
    s.calculateRet sp mv dt = some ()
    ∧ (s.calculateState sp mv dt).output
      = some ((sp - mv) * s.gain_p
        + clampI ((s.previous_integral + (sp - mv)) * dt) s.integral_limit
            * s.gain_i
        + ((sp - mv) - s.previous_error) / dt * s.gain_d) := by
  constructor <;>
    simp [PID.calculateRet, PID.calculateState, PID.calculate, h]

/-- Witness for `C2_theorem` at `PID::new(0, 100, 0, 0, None)` and the call
`calculate(50, 0, 200)`, whose computed output is `5000`. -/
theorem C2_witness :
    (PID.new (0 : Int) 100 0 0 none).zero_value < 200
    ∧ ((PID.new (0 : Int) 100 0 0 none).calculateRet 50 0 200 = some ()
      ∧ ((PID.new (0 : Int) 100 0 0 none).calculateState 50 0 200).output
          = some 5000) :=
  ⟨by decide, C2_theorem (PID.new (0 : Int) 100 0 0 none) 50 0 200 (by decide)⟩

/-- Claim C3: for strictly positive `delta_time` the committed integral is
the clamp applied to `(previous_integral + error) * delta_time` — the whole
accumulated history rescaled by the current `delta_time` — and on the
concrete scenario with gains `(0, 1, 0)`, no clamp and zero starting state,
`calculate(10, 0, 2)` produces output `20` and a second identical call
produces output `60`. -/
theorem C3_theorem (s : PID Int) (sp mv dt : Int) (h : s.zero_value < dt) :
    (s.calculateState sp mv dt).previous_integral
      = clampI ((s.previous_integral + (sp - mv)) * dt) s.integral_limit
    ∧ ((PID.new (0 : Int) 0 1 0 none).calculateState 10 0 2).output = some 20
    ∧ (((PID.new (0 : Int) 0 1 0 none).calculateState 10 0 2).calculateState
        10 0 2).output = some 60 := by
  refine ⟨?_, by decide, by decide⟩
  simp [PID.calculateState, PID.calculate, h]

/-- Witness for `C3_theorem` at `PID::new(0, 0, 1, 0, None)` and the call
`calculate(10, 0, 2)`, whose committed integral is `(0 + 10) * 2 = 20`. -/
theorem C3_witness :
    (PID.new (0 : Int) 0 1 0 none).zero_value < 2
    ∧ (((PID.new (0 : Int) 0 1 0 none).calculateState 10 0 2).previous_integral
          = 20
      ∧ ((PID.new (0 : Int) 0 1 0 none).calculateState 10 0 2).output = some 20
      ∧ (((PID.new (0 : Int) 0 1 0 none).calculateState 10 0 2).calculateState
          10 0 2).output = some 60) :=
  ⟨by decide, C3_theorem (PID.new (0 : Int) 0 1 0 none) 10 0 2 (by decide)⟩

/-- Claim C4: for strictly positive `delta_time` the published output equals
`error * gain_p + integral * gain_i + derivative * gain_d`, where
`error = set_point - measured_value`, `integral` is the clamped
`(previous_integral + error) * delta_time` and
`derivative = (error - previous_error) / delta_time`. -/
theorem C4_theorem (s : PID Int) (sp mv dt : Int) (h : s.zero_value < dt) :
    (s.calculateState sp mv dt).output
      = some ((sp - mv) * s.gain_p
        + clampI ((s.previous_integral + (sp - mv)) * dt) s.integral_limit
            * s.gain_i
        + ((sp - mv) - s.previous_error) / dt * s.gain_d) := by
  simp [PID.calculateState, PID.calculate, h]

/-- Witness for `C4_theorem` at `PID::new(0, 2, 3, 4, Some(7))` and the call
`calculate(10, 1, 2)`: error `9`, integral `18` clamped to `7`, derivative
`9 / 2 = 4`, output `9*2 + 7*3 + 4*4 = 55`. -/
theorem C4_witness :
    (PID.new (0 : Int) 2 3 4 (some 7)).zero_value < 2
    ∧ ((PID.new (0 : Int) 2 3 4 (some 7)).calculateState 10 1 2).output
        = some 55 :=
  ⟨by decide, C4_theorem (PID.new (0 : Int) 2 3 4 (some 7)) 10 1 2 (by decide)⟩

/-- Claim C5: with `integral_limit = Some L`, `L ≥ 0`, the integral committed
by any completing `calculate` call lies in `[-L, L]`, and the clamp
saturates: a raw integral above `L` is committed as exactly `L`, one below
`-L` as exactly `-L` (no wrapping). -/
theorem C5_theorem (s : PID Int) (sp mv dt L : Int) (h : s.zero_value < dt)
    (hlim : s.integral_limit = some L) (hL : 0 ≤ L) :
    (-L ≤ (s.calculateState sp mv dt).previous_integral
      ∧ (s.calculateState sp mv dt).previous_integral ≤ L)
    ∧ (L < (s.previous_integral + (sp - mv)) * dt →
        (s.calculateState sp mv dt).previous_integral = L)
    ∧ ((s.previous_integral + (sp - mv)) * dt < -L →
        (s.calculateState sp mv dt).previous_integral = -L) := by
  have hpi : (s.calculateState sp mv dt).previous_integral
      = clampI ((s.previous_integral + (sp - mv)) * dt) (some L) := by
    simp [PID.calculateState, PID.calculate, h, hlim]
  rw [hpi]
  refine ⟨clampI_mem _ _ hL, ?_, ?_⟩
  · intro hgt
    simp only [clampI]
    rw [if_pos hgt]
  · intro hlt
    simp only [clampI]
    split_ifs <;> omega

/-- Witness for `C5_theorem` at `PID::new(0, 0, 1, 0, Some(5))` and the call
`calculate(100, 0, 3)`: the raw integral `300` exceeds the limit, so the
committed integral saturates at `5`. -/
theorem C5_witness :
    ((PID.new (0 : Int) 0 1 0 (some 5)).zero_value < 3
      ∧ (PID.new (0 : Int) 0 1 0 (some 5)).integral_limit = some 5
      ∧ (0 : Int) ≤ 5)
    ∧ (-5 ≤ ((PID.new (0 : Int) 0 1 0 (some 5)).calculateState
              100 0 3).previous_integral
      ∧ ((PID.new (0 : Int) 0 1 0 (some 5)).calculateState
              100 0 3).previous_integral ≤ 5)
    ∧ ((PID.new (0 : Int) 0 1 0 (some 5)).calculateState
        100 0 3).previous_integral = 5 :=
  ⟨⟨by decide, by decide, by decide⟩,
    (C5_theorem (PID.new (0 : Int) 0 1 0 (some 5)) 100 0 3 5 (by decide)
      (by decide) (by decide)).1,
    (C5_theorem (PID.new (0 : Int) 0 1 0 (some 5)) 100 0 3 5 (by decide)
      (by decide) (by decide)).2.1 (by decide)⟩

/-- Claim C6: a pure proportional controller (`previous_integral = 0`,
`previous_error = 0`, `gain_i = 0`, `gain_d = 0`) publishes exactly
`gain_p * (set_point - measured_value)` for every strictly positive
`delta_time`. -/
theorem C6_theorem (s : PID Int) (sp mv dt : Int) (h : s.zero_value < dt)
    (hpi : s.previous_integral = 0) (hpe : s.previous_error = 0)
    (hgi : s.gain_i = 0) (hgd : s.gain_d = 0) :
    (s.calculateState sp mv dt).output = some (s.gain_p * (sp - mv)) := by
  have hout : (s.calculateState sp mv dt).output
      = some ((sp - mv) * s.gain_p) := by
    simp [PID.calculateState, PID.calculate, h, hpi, hpe, hgi, hgd]
  rw [hout, mul_comm]

/-- Witness for `C6_theorem` at `PID::new(0, 7, 0, 0, None)` and the call
`calculate(9, 4, 5)`, whose output is `7 * (9 - 4) = 35`. -/
theorem C6_witness :
    ((PID.new (0 : Int) 7 0 0 none).zero_value < 5
      ∧ (PID.new (0 : Int) 7 0 0 none).previous_integral = 0
      ∧ (PID.new (0 : Int) 7 0 0 none).previous_error = 0
      ∧ (PID.new (0 : Int) 7 0 0 none).gain_i = 0
      ∧ (PID.new (0 : Int) 7 0 0 none).gain_d = 0)
    ∧ ((PID.new (0 : Int) 7 0 0 none).calculateState 9 4 5).output
        = some 35 :=
  ⟨⟨by decide, by decide, by decide, by decide, by decide⟩,
    C6_theorem (PID.new (0 : Int) 7 0 0 none) 9 4 5 (by decide) (by decide)
      (by decide) (by decide) (by decide)⟩

/-- Claim C7, counterexample: the constructor does not set the output history
to the numeric zero — the `output` field is an `Option` initialized to
`None`, not to `Some 0`. -/
theorem C7_counterexample :
    (PID.new (0 : Int) 1 2 3 none).output = none
    ∧ (PID.new (0 : Int) 1 2 3 none).output ≠ some 0 := by decide

/-- Claim C7, amended: `new(zero_value, gain_p, gain_i, gain_d,
integral_limit)` initializes `previous_error` and `previous_integral` to the
supplied `zero_value`, stores `zero_value`, the three gains and the optional
clamp verbatim, and initializes the `output` field to `None`. -/
theorem C7_theorem (z p i d : Int) (lim : Option Int) :
    (PID.new z p i d lim).previous_error = z
    ∧ (PID.new z p i d lim).previous_integral = z
    ∧ (PID.new z p i d lim).zero_value = z
    ∧ (PID.new z p i d lim).gain_p = p
    ∧ (PID.new z p i d lim).gain_i = i
    ∧ (PID.new z p i d lim).gain_d = d
    ∧ (PID.new z p i d lim).integral_limit = lim
    ∧ (PID.new z p i d lim).output = none :=
  ⟨rfl, rfl, rfl, rfl, rfl, rfl, rfl, rfl⟩

/-- Claim C8: every call leaves the gains, the clamp and the stored zero
value untouched; a completing call commits `previous_error`,
`previous_integral` and `output` together, each to its computed value; and a
panicking call commits none of them (the state is exactly the old one). -/
theorem C8_theorem (s : PID Int) (sp mv dt : Int) :
    ((s.calculateState sp mv dt).gain_p = s.gain_p
      ∧ (s.calculateState sp mv dt).gain_i = s.gain_i
      ∧ (s.calculateState sp mv dt).gain_d = s.gain_d
      ∧ (s.calculateState sp mv dt).integral_limit = s.integral_limit
      ∧ (s.calculateState sp mv dt).zero_value = s.zero_value)
    ∧ (s.zero_value < dt →
        (s.calculateState sp mv dt).previous_error = sp - mv
        ∧ (s.calculateState sp mv dt).previous_integral
            = clampI ((s.previous_integral + (sp - mv)) * dt) s.integral_limit
        ∧ (s.calculateState sp mv dt).output
            = some ((sp - mv) * s.gain_p
              + clampI ((s.previous_integral + (sp - mv)) * dt)
                  s.integral_limit * s.gain_i
              + ((sp - mv) - s.previous_error) / dt * s.gain_d))
    ∧ (¬ s.zero_value < dt → s.calculateState sp mv dt = s) := by
  by_cases h : s.zero_value < dt
  · refine ⟨?_, fun _ => ?_, fun hn => absurd h hn⟩ <;>
      simp [PID.calculateState, PID.calculate, h]
  · refine ⟨?_, fun hp => absurd hp h, fun _ => ?_⟩ <;>
      simp [PID.calculateState, PID.calculate, h]

/-- Witness for `C8_theorem` at `PID::new(0, 1, 1, 1, None)`: the completing
call `calculate(3, 1, 2)` commits error `2`, integral `4` and output `7`
together, and the panicking call `calculate(3, 1, 0)` commits nothing. -/
theorem C8_witness :
    ((PID.new (0 : Int) 1 1 1 none).zero_value < 2
      ∧ ¬ (PID.new (0 : Int) 1 1 1 none).zero_value < 0)
    ∧ (((PID.new (0 : Int) 1 1 1 none).calculateState 3 1 2).previous_error
          = 2
      ∧ ((PID.new (0 : Int) 1 1 1 none).calculateState 3 1 2).previous_integral
          = 4
      ∧ ((PID.new (0 : Int) 1 1 1 none).calculateState 3 1 2).output = some 7)
    ∧ (PID.new (0 : Int) 1 1 1 none).calculateState 3 1 0
        = PID.new (0 : Int) 1 1 1 none :=
  ⟨⟨by decide, by decide⟩,
    (C8_theorem (PID.new (0 : Int) 1 1 1 none) 3 1 2).2.1 (by decide),
    (C8_theorem (PID.new (0 : Int) 1 1 1 none) 3 1 0).2.2 (by decide)⟩

/-- Claim C9: `calculate` panics exactly when `delta_time` is not strictly
greater than the stored `zero_value` field, a panicking call modifies no
field, and the comparison really is against the stored `zero_value`, not a
canonical zero: a controller constructed with `zero_value = 5` panics on the
positive `delta_time = 3`. -/
theorem C9_theorem (s : PID Int) (sp mv dt : Int) :
    (s.calculate sp mv dt = none ↔ ¬ s.zero_value < dt)
    ∧ (¬ s.zero_value < dt → s.calculateState sp mv dt = s)
    ∧ (PID.new (5 : Int) 1 1 1 none).calculate 0 0 3 = none := by
  refine ⟨?_, fun h => ?_, by decide⟩
  · by_cases h : s.zero_value < dt <;> simp [PID.calculate, h]
  · simp [PID.calculateState, PID.calculate, h]

/-- Witness for `C9_theorem` at `PID::new(0, 1, 1, 1, None)` and the
panicking call `calculate(5, 2, 0)`, which leaves the controller exactly as
constructed. -/
theorem C9_witness :
    (¬ (PID.new (0 : Int) 1 1 1 none).zero_value < 0)
    ∧ (PID.new (0 : Int) 1 1 1 none).calculateState 5 2 0
        = PID.new (0 : Int) 1 1 1 none :=
  ⟨by decide, (C9_theorem (PID.new (0 : Int) 1 1 1 none) 5 2 0).2.1
    (by decide)⟩

/-- Claim C10: the `output` field is `None` straight out of the constructor
and is `Some` of the computed value after every completing `calculate` call,
so a caller reading `output` distinguishes a never-called controller from one
that completed a cycle. -/
theorem C10_theorem (s : PID Int) (sp mv dt z p i d : Int)
    (lim : Option Int) :
    (PID.new z p i d lim).output = none
    ∧ (s.zero_value < dt →
        ((s.calculateState sp mv dt).output).isSome = true) := by
  refine ⟨rfl, fun h => ?_⟩
  simp [PID.calculateState, PID.calculate, h]

/-- Witness for `C10_theorem`: after `PID::new(0, 1, 1, 1, None)` completes
`calculate(6, 1, 4)`, the `output` field holds a value. -/
theorem C10_witness :
    (PID.new (0 : Int) 1 1 1 none).zero_value < 4
    ∧ (((PID.new (0 : Int) 1 1 1 none).calculateState 6 1 4).output).isSome
        = true :=
  ⟨by decide,
    (C10_theorem (PID.new (0 : Int) 1 1 1 none) 6 1 4 0 1 1 1 none).2
      (by decide)⟩
